import Mathlib

/-!
Verification development for the WeatherBrain scoring engine.

Shallow embedding of the core scoring code (`brain.py`, the shared window
helpers of `scoring.py`, and the threshold-overlay verdict classification of
`app.py`).  Python floats are modelled as exact rationals, Python dicts with
optional keys as structures with `Option` fields (a missing key is `none`),
and Python exceptions as `Except.error`.  `round` is Python's builtin
round-half-to-even on rationals.
-/

/-- A raw day of weather, as consumed by `score_day` (`brain.py`).
Each field models one dict key the code reads; `none` means the key is
absent. -/
structure DayWeather where
  date : Option String := none
  wind_kmh : Option ℚ := none
  gust_kmh : Option ℚ := none
  rain_mm : Option ℚ := none
  temp_min : Option ℚ := none
  temp_max : Option ℚ := none
  temp_c : Option ℚ := none
  river_flow : Option ℚ := none
  flow : Option ℚ := none
deriving Repr, DecidableEq

/-- A band with a single `max` threshold (`rain_bands`, also used for
`flow_bands`, whose `min` keys the simple scorer never reads). -/
structure SimpleBand where
  min : Option ℚ := none
  max : Option ℚ := none
  score : Option ℚ := none
  label : Option String := none
  description : Option String := none
deriving Repr, DecidableEq

/-- A paired wind/gust band of `wind_bands`. -/
structure WindBand where
  max_wind : Option ℚ := none
  max_gust : Option ℚ := none
  score : Option ℚ := none
  label : Option String := none
  description : Option String := none
deriving Repr, DecidableEq

/-- A `min`/`max` range band of `temp_bands`. -/
structure TempBand where
  min : Option ℚ := none
  max : Option ℚ := none
  score : Option ℚ := none
  label : Option String := none
  description : Option String := none
deriving Repr, DecidableEq

/-- The dict returned by the band scorers: `score`, `label`, `description`. -/
structure BandResult where
  score : ℚ
  label : String
  description : String
deriving Repr, DecidableEq

/-- The `weights` dict of an activity profile; a missing category key is
weight `0.0` (the code reads every category with `weights.get(cat, 0.0)`). -/
structure Weights where
  wind : ℚ := 0
  rain : ℚ := 0
  temp : ℚ := 0
  cloud : ℚ := 0
  flow : ℚ := 0
deriving Repr, DecidableEq

/-- The `window_logic` dict of an activity profile. -/
structure WindowLogic where
  min_score_for_good : Option ℚ := none
  min_window_length : Option ℤ := none
  min_good_days : Option ℤ := none
deriving Repr, DecidableEq

/-- An activity profile from `region_profiles.py`.  A missing band list is
the empty list (the code reads `profile.get("<cat>_bands", [])`), except
`flow_bands` where the code tests key presence (`"flow_bands" in profile`),
hence an `Option`. -/
structure ActivityProfile where
  label : String := ""
  weights : Weights := {}
  wind_bands : List WindBand := []
  rain_bands : List SimpleBand := []
  temp_bands : List TempBand := []
  flow_bands : Option (List SimpleBand) := none
  window_logic : WindowLogic := {}
deriving Repr, DecidableEq

/-- A region entry of `REGION_PROFILES`. -/
structure RegionProfile where
  label : String
  timezone : String
  default_activity : String
  activities : List (String × ActivityProfile)
deriving Repr, DecidableEq

/-- Python's builtin `round` on a rational: round half to even. -/
def pyRound (x : ℚ) : ℤ :=
  if x - Int.floor x < 1/2 then Int.floor x
  else if 1/2 < x - Int.floor x then Int.floor x + 1
  else if Int.floor x % 2 = 0 then Int.floor x else Int.floor x + 1

/-- `_label_from_score` (`brain.py`, lines 23-33): map a 0-100 score to a
simple label. -/
def _label_from_score (score : ℚ) : String :=
  if score ≥ 85 then "excellent"
  else if score ≥ 70 then "good"
  else if score ≥ 55 then "ok"
  else if score ≥ 40 then "marginal"
  else "no-go"

/-- The scan of `_score_simple_bands` (`brain.py`, lines 41-49): first band
whose `max` is present and at least `value`; bands without `max` are
skipped. -/
def findSimpleBand (value : ℚ) : List SimpleBand → Option SimpleBand
  | [] => none
  | b :: bs =>
    match b.max with
    | none => findSimpleBand value bs
    | some m => if value ≤ m then some b else findSimpleBand value bs

/-- `_score_simple_bands` (`brain.py`, lines 36-61). -/
def _score_simple_bands (value : ℚ) (bands : List SimpleBand) : BandResult :=
  match (findSimpleBand value bands).orElse (fun _ => bands.getLast?) with
  | none => { score := 50, label := "unknown", description := "No band matched." }
  | some b =>
    { score := b.score.getD 50
      label := b.label.getD "unknown"
      description := b.description.getD "" }

/-- The fallback loop of `_score_temp_bands` (`brain.py`, lines 83-93):
closest-midpoint band, earliest wins ties (strict improvement only). -/
def closestTempBand (avg : ℚ) : List TempBand → Option (TempBand × ℚ) → Option TempBand
  | [], best => best.map Prod.fst
  | b :: bs, best =>
    let mid := ((b.min.getD (-999)) + (b.max.getD 999)) / 2
    let delta := |mid - avg|
    match best with
    | none => closestTempBand avg bs (some (b, delta))
    | some (bb, bd) =>
      if delta < bd then closestTempBand avg bs (some (b, delta))
      else closestTempBand avg bs (some (bb, bd))

/-- `_score_temp_bands` (`brain.py`, lines 64-102). -/
def _score_temp_bands (temp_min temp_max : ℚ) (bands : List TempBand) : BandResult :=
  let avg := (temp_min + temp_max) / 2
  let candidates := bands.filter (fun b => (b.min.getD (-999)) ≤ avg ∧ avg ≤ (b.max.getD 999))
  match candidates.head?.orElse (fun _ => closestTempBand avg bands none) with
  | none => { score := 50, label := "unknown", description := "No temp band matched." }
  | some b =>
    { score := b.score.getD 50
      label := b.label.getD "unknown"
      description := b.description.getD "" }

/-- The scan of `_score_wind_bands` (`brain.py`, lines 111-117): first band
covering both the steady and gust value. -/
def findWindBand (wind_kmh gust_kmh : ℚ) : List WindBand → Option WindBand
  | [] => none
  | b :: bs =>
    if wind_kmh ≤ b.max_wind.getD 999 ∧ gust_kmh ≤ b.max_gust.getD 999 then some b
    else findWindBand wind_kmh gust_kmh bs

/-- `_score_wind_bands` (`brain.py`, lines 105-129). -/
def _score_wind_bands (wind_kmh gust_kmh : ℚ) (bands : List WindBand) : BandResult :=
  match (findWindBand wind_kmh gust_kmh bands).orElse (fun _ => bands.getLast?) with
  | none => { score := 50, label := "unknown", description := "No wind band matched." }
  | some b =>
    { score := b.score.getD 50
      label := b.label.getD "unknown"
      description := b.description.getD "" }

/-- Result of scoring one day (`score_day`, `brain.py` lines 222-228): the
returned dict, with the `reasons` sub-dict flattened into one field per
category (`flow` present only when a flow sub-score was computed). -/
structure ScoredDayResult where
  date : Option String
  score : ℤ
  label : String
  reasons_wind : BandResult
  reasons_rain : BandResult
  reasons_temp : BandResult
  reasons_flow : Option BandResult
  raw : DayWeather
deriving Repr, DecidableEq

/-- `t_min` of `score_day` (line 177): `day.get("temp_min", day.get("temp_c", 0.0))`. -/
def dayTempMin (day : DayWeather) : ℚ := (day.temp_min <|> day.temp_c).getD 0

/-- `t_max` of `score_day` (line 178): `day.get("temp_max", day.get("temp_c", t_min))`. -/
def dayTempMax (day : DayWeather) : ℚ := (day.temp_max <|> day.temp_c).getD (dayTempMin day)

/-- `wind_info` of `score_day` (lines 165-169); a missing wind or gust key
defaults to `0.0`. -/
def dayWindInfo (profile : ActivityProfile) (day : DayWeather) : BandResult :=
  _score_wind_bands (day.wind_kmh.getD 0) (day.gust_kmh.getD 0) profile.wind_bands

/-- `rain_info` of `score_day` (lines 171-174). -/
def dayRainInfo (profile : ActivityProfile) (day : DayWeather) : BandResult :=
  _score_simple_bands (day.rain_mm.getD 0) profile.rain_bands

/-- `temp_info` of `score_day` (lines 179-183). -/
def dayTempInfo (profile : ActivityProfile) (day : DayWeather) : BandResult :=
  _score_temp_bands (dayTempMin day) (dayTempMax day) profile.temp_bands

/-- `flow_info` of `score_day` (lines 186-189): computed only when the flow
weight is positive and the profile has a `flow_bands` key; the flow value is
`day.get("river_flow", day.get("flow", 0.0))`. -/
def dayFlowInfo (profile : ActivityProfile) (day : DayWeather) : Option BandResult :=
  if 0 < profile.weights.flow ∧ profile.flow_bands.isSome then
    some (_score_simple_bands ((day.river_flow <|> day.flow).getD 0) (profile.flow_bands.getD []))
  else none

/-- `component_scores` of `score_day` (lines 195-203): `(score, weight)`
pairs of the categories that contribute. -/
def dayComponents (profile : ActivityProfile) (day : DayWeather) : List (ℚ × ℚ) :=
  (if 0 < profile.weights.wind then [((dayWindInfo profile day).score, profile.weights.wind)] else []) ++
  (if 0 < profile.weights.rain then [((dayRainInfo profile day).score, profile.weights.rain)] else []) ++
  (if 0 < profile.weights.temp then [((dayTempInfo profile day).score, profile.weights.temp)] else []) ++
  (match dayFlowInfo profile day with
   | some fi => if 0 < profile.weights.flow then [(fi.score, profile.weights.flow)] else []
   | none => [])

/-- `final_score` of `score_day` (lines 205-210): weighted average over the
contributing categories, or the fixed neutral `50.0` when none contribute. -/
def dayFinalScore (profile : ActivityProfile) (day : DayWeather) : ℚ :=
  let cs := dayComponents profile day
  if cs.isEmpty then 50
  else ((cs.map fun sw => sw.1 * sw.2).sum) / ((cs.map Prod.snd).sum)

/-- The body of `score_day` (`brain.py` lines 153-228) after the profile
lookup: score a day against one activity profile. -/
def scoreDayProfile (profile : ActivityProfile) (day : DayWeather) : ScoredDayResult :=
  { date := day.date
    score := pyRound (dayFinalScore profile day)
    label := _label_from_score (dayFinalScore profile day)
    reasons_wind := dayWindInfo profile day
    reasons_rain := dayRainInfo profile day
    reasons_temp := dayTempInfo profile day
    reasons_flow := dayFlowInfo profile day
    raw := day }

/-- The `"hunter"` / `"boating_fizz"` profile of `region_profiles.py`. -/
def hunterBoatingFizz : ActivityProfile :=
  { label := "Fizzboat – Hunter"
    weights := { wind := 0.50, rain := 0.15, temp := 0.20, cloud := 0.15 }
    wind_bands :=
      [ { max_wind := some 10, max_gust := some 18, score := some 95, label := some "glassy",
          description := some "Light winds, easy boating, minimal chop." }
      , { max_wind := some 16, max_gust := some 28, score := some 85, label := some "breezy",
          description := some "Breezy but still comfortable for a fizz boat." }
      , { max_wind := some 22, max_gust := some 35, score := some 70, label := some "lumpy",
          description := some "Lumpy but workable if you’re keen." }
      , { max_wind := some 28, max_gust := some 45, score := some 45, label := some "hard_work",
          description := some "Hard work, only go if you really want it." }
      , { max_wind := some 999, max_gust := some 999, score := some 15, label := some "no_go",
          description := some "Too windy – not worth it." } ]
    rain_bands :=
      [ { max := some 0.5, score := some 95, label := some "dry",
          description := some "Essentially dry." }
      , { max := some 3.0, score := some 85, label := some "light_showers",
          description := some "Light showers, still an easy day out." }
      , { max := some 8.0, score := some 60, label := some "wet",
          description := some "Wet day but still fishable/boatable if you’re motivated." }
      , { max := some 999, score := some 30, label := some "soaking",
          description := some "Soaking – most people will stay home." } ]
    temp_bands :=
      [ { min := some 5, max := some 10, score := some 65, label := some "chilly",
          description := some "Chilly but manageable with decent gear." }
      , { min := some 11, max := some 20, score := some 90, label := some "comfortable",
          description := some "Comfortable for a day on the water." }
      , { min := some 21, max := some 28, score := some 80, label := some "warm",
          description := some "Warm day, bring sunscreen." }
      , { min := some (-999), max := some 4, score := some 40, label := some "cold",
          description := some "Cold – not a deal breaker but less pleasant." } ]
    window_logic :=
      { min_good_days := some 1, min_score_for_good := some 65, min_window_length := some 1 } }

/-- The `"te_anau"` / `"boating_moana"` profile of `region_profiles.py`. -/
def teAnauBoatingMoana : ActivityProfile :=
  { label := "Moana – overnight cruising"
    weights := { wind := 0.45, rain := 0.25, temp := 0.20, cloud := 0.10 }
    wind_bands :=
      [ { max_wind := some 12, max_gust := some 25, score := some 90, label := some "ideal",
          description := some "Light to moderate winds, easy cruising." }
      , { max_wind := some 20, max_gust := some 35, score := some 70, label := some "ok",
          description := some "Fresh but fine for a solid launch." }
      , { max_wind := some 26, max_gust := some 45, score := some 45, label := some "lumpy",
          description := some "Lumpy – ok in short hops if you’re experienced." }
      , { max_wind := some 999, max_gust := some 999, score := some 25, label := some "stay_in_harbour",
          description := some "Too rough for a relaxed trip." } ]
    rain_bands :=
      [ { max := some 1.0, score := some 90, label := some "showers_ok",
          description := some "Showers about, typical Fiordland day." }
      , { max := some 5.0, score := some 65, label := some "rainy_but_fine",
          description := some "Steady rain but Moana can handle it." }
      , { max := some 999, score := some 30, label := some "soaking",
          description := some "Hosing down – not a trip for everyone." } ]
    temp_bands :=
      [ { min := some 3, max := some 8, score := some 60, label := some "cold_but_ok",
          description := some "Cold, but cabin and gear make it fine." }
      , { min := some 9, max := some 18, score := some 85, label := some "comfortable",
          description := some "Comfortable inside and out." }
      , { min := some 19, max := some 25, score := some 80, label := some "warm",
          description := some "Warm cruising conditions." } ]
    window_logic :=
      { min_good_days := some 2, min_score_for_good := some 65, min_window_length := some 2 } }

/-- The `"waikaia"` / `"river_fishing"` profile of `region_profiles.py`. -/
def waikaiaRiverFishing : ActivityProfile :=
  { label := "Waikaia – trout mission"
    weights := { wind := 0.20, rain := 0.40, temp := 0.20, cloud := 0.10, flow := 0.10 }
    flow_bands := some
      [ { min := some 8, max := some 18, score := some 95, label := some "prime",
          description := some "Prime flow – classic Waikaia." }
      , { min := some 19, max := some 25, score := some 75, label := some "ok",
          description := some "Ok but getting up." }
      , { min := some 26, max := some 35, score := some 45, label := some "high",
          description := some "High and pushy." }
      , { min := some 36, max := some 999, score := some 20, label := some "flooded",
          description := some "Basically blown out." } ]
    rain_bands :=
      [ { max := some 0.5, score := some 95, label := some "dry",
          description := some "Dry or near enough." }
      , { max := some 3.0, score := some 75, label := some "light_rain",
          description := some "Light rain, river should hold." }
      , { max := some 10.0, score := some 40, label := some "dirtying",
          description := some "Enough rain that colour and level become an issue." }
      , { max := some 999, score := some 20, label := some "blown_out",
          description := some "Likely blown out or close to it." } ]
    wind_bands :=
      [ { max_wind := some 8, max_gust := some 15, score := some 90, label := some "easy_casting",
          description := some "Gentle breeze, easy casting." }
      , { max_wind := some 15, max_gust := some 25, score := some 70, label := some "workable",
          description := some "Workable, just a bit of line management." }
      , { max_wind := some 22, max_gust := some 35, score := some 45, label := some "hard_work",
          description := some "Hard work, cross-wind mends and ugly casts." }
      , { max_wind := some 999, max_gust := some 999, score := some 25, label := some "gnarly",
          description := some "Pretty grim – possible, but not fun." } ]
    temp_bands :=
      [ { min := some 6, max := some 12, score := some 80, label := some "cool",
          description := some "Cool but great trout temps." }
      , { min := some 13, max := some 20, score := some 90, label := some "mint",
          description := some "Mint temps – classic fishing day." }
      , { min := some (-999), max := some 5, score := some 40, label := some "cold",
          description := some "Cold – trout still feed but less comfy for you." } ]
    window_logic :=
      { min_good_days := some 1, min_score_for_good := some 70, min_window_length := some 1 } }

/-- The `"hunter"` region entry of `REGION_PROFILES`. -/
def hunterRegion : RegionProfile :=
  { label := "Hunter – fizz boat missions", timezone := "Pacific/Auckland",
    default_activity := "boating_fizz",
    activities := [("boating_fizz", hunterBoatingFizz)] }

/-- The `"te_anau"` region entry of `REGION_PROFILES`. -/
def teAnauRegion : RegionProfile :=
  { label := "Te Anau – Moana", timezone := "Pacific/Auckland",
    default_activity := "boating_moana",
    activities := [("boating_moana", teAnauBoatingMoana)] }

/-- The `"waikaia"` region entry of `REGION_PROFILES`. -/
def waikaiaRegion : RegionProfile :=
  { label := "Waikaia River – fishing", timezone := "Pacific/Auckland",
    default_activity := "river_fishing",
    activities := [("river_fishing", waikaiaRiverFishing)] }

/-- `REGION_PROFILES` (`region_profiles.py`), as an association list. -/
def REGION_PROFILES : List (String × RegionProfile) :=
  [("hunter", hunterRegion), ("te_anau", teAnauRegion), ("waikaia", waikaiaRegion)]

/-- `REGION_PROFILES.get(region_id)`. -/
def lookupRegion (region_id : String) : Option RegionProfile :=
  (REGION_PROFILES.find? (fun p => p.1 == region_id)).map Prod.snd

/-- `region.get("activities", {}).get(activity_id)`. -/
def lookupActivity (region : RegionProfile) (activity_id : String) : Option ActivityProfile :=
  (region.activities.find? (fun p => p.1 == activity_id)).map Prod.snd

/-- `score_day` (`brain.py`, lines 132-228): the two identifier lookups
(`ValueError` on failure, modelled as `Except.error`) followed by scoring
the day against the resolved profile. -/
def score_day (region_id activity_id : String) (day : DayWeather) :
    Except String ScoredDayResult :=
  match lookupRegion region_id with
  | none => Except.error ("Unknown region_id: " ++ region_id)
  | some region =>
    match lookupActivity region activity_id with
    | none =>
      Except.error ("Unknown activity_id " ++ activity_id ++ " for region " ++ region_id)
    | some profile => Except.ok (scoreDayProfile profile day)

/-- A scored-day dict as consumed by the window finders: the keys
`_find_windows` (`brain.py`) and `find_multi_day_windows` (`scoring.py`)
read are `date`, `score` and `label`. -/
structure ScoredDay where
  date : Option String
  score : ℚ
  label : String
deriving Repr, DecidableEq

/-- A window dict (`start_date`, `end_date`, `length`, `avg_score`) as built
by the window finders. -/
structure Window where
  start_date : Option String
  end_date : Option String
  length : ℕ
  avg_score : ℚ
deriving Repr, DecidableEq

/-- The window dict built from a run of days (`brain.py` lines 248-257 and
262-273): first day's date, last day's date, length, mean score. -/
def mkWindow (run : List ScoredDay) : Window :=
  { start_date := run.head?.bind ScoredDay.date
    end_date := run.getLast?.bind ScoredDay.date
    length := run.length
    avg_score := ((run.map ScoredDay.score).sum) / (run.length : ℚ) }

/-- The left-to-right scan shared by `_find_windows` (`brain.py`, lines
240-273) and `find_multi_day_windows` (`scoring.py`, lines 127-161), whose
loop bodies are identical up to the qualification predicate `q`.  The
accumulator models `start_idx`: `none` when no run is open, `some run` when
the days since `start_idx` are `run`.  A closed run is emitted when its
length reaches `min_length`; the trailing run is flushed at the end of the
list. -/
def findWindowsGo (q : ScoredDay → Bool) (min_length : ℤ) :
    List ScoredDay → Option (List ScoredDay) → List Window
  | [], none => []
  | [], some run => if min_length ≤ (run.length : ℤ) then [mkWindow run] else []
  | d :: ds, none =>
    if q d then findWindowsGo q min_length ds (some [d])
    else findWindowsGo q min_length ds none
  | d :: ds, some run =>
    if q d then findWindowsGo q min_length ds (some (run ++ [d]))
    else
      (if min_length ≤ (run.length : ℤ) then [mkWindow run] else []) ++
        findWindowsGo q min_length ds none

/-- Run the window scan from the initial state (`start_idx = None`). -/
def findWindowsBy (q : ScoredDay → Bool) (days : List ScoredDay) (min_length : ℤ) :
    List Window :=
  findWindowsGo q min_length days none

/-- `_find_windows` (`brain.py`, lines 231-275): numeric quality floor,
a day qualifies when `score >= min_score`. -/
def _find_windows (days : List ScoredDay) (min_score : ℚ) (min_length : ℤ) : List Window :=
  findWindowsBy (fun d => min_score ≤ d.score) days min_length

/-- The `label_rank` dict of `find_multi_day_windows` (`scoring.py`,
lines 115-121). -/
def label_rank (label : String) : Option ℕ :=
  if label = "no-go" then some 0
  else if label = "marginal" then some 1
  else if label = "ok" then some 2
  else if label = "good" then some 3
  else if label = "excellent" then some 4
  else none

/-- `find_multi_day_windows` (`scoring.py`, lines 105-163): label quality
floor, a day qualifies when its label rank (default 0) reaches the rank of
`min_label` (default 3). -/
def find_multi_day_windows (days : List ScoredDay) (min_length : ℤ) (min_label : String) :
    List Window :=
  let min_rank := (label_rank min_label).getD 3
  findWindowsBy (fun d => min_rank ≤ (label_rank d.label).getD 0) days min_length

/-- One insertion step of Python's stable `sorted(..., reverse=True)` under
the key `(length, avg_score)`: a window moves past an already-placed one
only when its key is strictly larger. -/
def insertWindowDesc (w : Window) : List Window → List Window
  | [] => [w]
  | x :: xs =>
    if w.length < x.length ∨ (w.length = x.length ∧ w.avg_score < x.avg_score) then
      x :: insertWindowDesc w xs
    else w :: x :: xs

/-- `sorted(windows, key=lambda w: (w.length, w.avg_score), reverse=True)`:
stable descending sort by the lexicographic key. -/
def sortWindowsDesc (windows : List Window) : List Window :=
  windows.foldr insertWindowDesc []

/-- `_choose_best_window` (`brain.py`, lines 278-289) and
`choose_best_window` (`scoring.py`, lines 166-183): `None` on an empty
list, else the head of the stable descending sort. -/
def _choose_best_window (windows : List Window) : Option Window :=
  match windows with
  | [] => none
  | _ => (sortWindowsDesc windows).head?

/-- `min_score_for_good` (`brain.py`, line 319). -/
def profileMinScoreForGood (profile : ActivityProfile) : ℚ :=
  profile.window_logic.min_score_for_good.getD 70

/-- `min_window_length` (`brain.py`, line 320). -/
def profileMinWindowLength (profile : ActivityProfile) : ℤ :=
  profile.window_logic.min_window_length.getD 1

/-- `min_good_days` (`brain.py`, line 321): defaults to `min_window_length`. -/
def profileMinGoodDays (profile : ActivityProfile) : ℤ :=
  profile.window_logic.min_good_days.getD (profileMinWindowLength profile)

/-- Project a scored day's dict onto the keys the window finder reads. -/
def toScoredDay (r : ScoredDayResult) : ScoredDay :=
  { date := r.date, score := (r.score : ℚ), label := r.label }

/-- The fixed-profile expedition verdict of `score_period` (`brain.py`,
lines 330-339). -/
def periodVerdict (min_good_days : ℤ) (min_score_for_good : ℚ)
    (best_window : Option Window) : String :=
  match best_window with
  | none => "no-window"
  | some bw =>
    if min_good_days ≤ (bw.length : ℤ) ∧ min_score_for_good + 10 ≤ bw.avg_score then "go"
    else "maybe-go"

/-- The dict returned by `score_period` (`brain.py`, lines 341-346). -/
structure PeriodResult where
  days : List ScoredDayResult
  windows : List Window
  best_window : Option Window
  expedition_verdict : String
deriving Repr, DecidableEq

/-- `score_period` (`brain.py`, lines 292-346): identifier lookups
(`ValueError` modelled as `Except.error`), then per-day scoring, window
finding, best-window selection and the fixed-profile verdict. -/
def score_period (region_id activity_id : String) (days : List DayWeather) :
    Except String PeriodResult :=
  match lookupRegion region_id with
  | none => Except.error ("Unknown region_id: " ++ region_id)
  | some region =>
    match lookupActivity region activity_id with
    | none =>
      Except.error ("Unknown activity_id " ++ activity_id ++ " for region " ++ region_id)
    | some profile =>
      let min_score_for_good := profileMinScoreForGood profile
      let min_window_length := profileMinWindowLength profile
      let min_good_days := profileMinGoodDays profile
      let scored_days := days.map (scoreDayProfile profile)
      let windows := _find_windows (scored_days.map toScoredDay) min_score_for_good min_window_length
      let best_window := _choose_best_window windows
      Except.ok
        { days := scored_days
          windows := windows
          best_window := best_window
          expedition_verdict := periodVerdict min_good_days min_score_for_good best_window }

/-- The threshold-overlay verdict classification used by the expedition
endpoints (`app.py`, lines 459-476 and 756-787): `round` the best window's
average score and compare it against the overlay's `go_threshold` and
`maybe_threshold`. -/
def classifyOverlay (best_window : Option Window) (go_threshold maybe_threshold : ℤ) :
    String :=
  match best_window with
  | none => "no-window"
  | some best =>
    let avg_score := pyRound best.avg_score
    if go_threshold ≤ avg_score then "go"
    else if maybe_threshold ≤ avg_score then "maybe-go"
    else "hold"

/-- The maximal qualifying runs of a scored sequence, left to right: the
reference decomposition against which the scan `findWindowsGo` is proved
correct. -/
def qualRuns (q : ScoredDay → Bool) : List ScoredDay → List (List ScoredDay)
  | [] => []
  | d :: ds =>
    if h : q d then ((d :: ds).takeWhile q) :: qualRuns q ((d :: ds).dropWhile q)
    else qualRuns q ds
termination_by l => l.length
decreasing_by
  · rw [List.dropWhile_cons_of_pos h]
    exact Nat.lt_succ_of_le (List.dropWhile_sublist q).length_le
  · simp

/-- Emit one window per run of sufficient length, in order. -/
def runsWindows (min_length : ℤ) : List (List ScoredDay) → List Window
  | [] => []
  | r :: rs =>
    (if min_length ≤ (r.length : ℤ) then [mkWindow r] else []) ++ runsWindows min_length rs

/-- `SepRuns q days rs` says `rs` lists exactly the maximal qualifying runs
of `days`, in order: `days` splits into the runs separated by gaps of
disqualifying days, every run is non-empty and wholly qualifying, the gap
before each run and the tail after the last run are wholly disqualifying,
and between two consecutive runs at least one disqualifying day stands
(so no run can be extended and no two runs are adjacent). -/
def SepRuns (q : ScoredDay → Bool) : List ScoredDay → List (List ScoredDay) → Prop
  | ds, [] => ∀ d ∈ ds, q d = false
  | ds, r :: rs =>
    ∃ g rest, ds = g ++ r ++ rest ∧ (∀ d ∈ g, q d = false) ∧ r ≠ [] ∧
      (∀ d ∈ r, q d = true) ∧ (rs ≠ [] → ∃ e t, rest = e :: t ∧ q e = false) ∧
      SepRuns q rest rs

/-- The ordering key of `_choose_best_window`, as a non-strict comparison:
`a` is at most `b` under the lexicographic `(length, avg_score)` key. -/
def winKeyLe (a b : Window) : Prop :=
  a.length < b.length ∨ (a.length = b.length ∧ a.avg_score ≤ b.avg_score)

/-- The observable outputs of scoring a day: everything `score_day` returns
except the `raw` echo of its input. -/
def dayObservables (r : ScoredDayResult) :
    ℤ × String × BandResult × BandResult × BandResult × Option BandResult :=
  (r.score, r.label, r.reasons_wind, r.reasons_rain, r.reasons_temp, r.reasons_flow)

/-- A day on Lake Te Anau whose weighted average lands at 715/18 (about
39.72): rounding carries the stored score up to 40 while the label is
computed from the unrounded value. -/
def c1Day : DayWeather :=
  { date := some "2026-01-01", wind_kmh := some 30, gust_kmh := some 50,
    rain_mm := some 10, temp_min := some 10, temp_max := some 14 }

/-- A profile whose weights dict is empty: no category can contribute. -/
def degenerateProfile : ActivityProfile := { label := "degenerate" }

/-- A day record with every optional key absent. -/
def emptyDay : DayWeather := { }

/-- A Waikaia day with wind, rain and temperature present but no river-flow
key at all. -/
def c3Day : DayWeather :=
  { date := some "2026-02-01", wind_kmh := some 5, gust_kmh := some 10,
    rain_mm := some 1, temp_min := some 14, temp_max := some 18 }

/-- A profile that weights wind fully but defines no band list at all. -/
def noBandsProfile : ActivityProfile :=
  { label := "misconfigured", weights := { wind := 1 } }

/-- A band that forgot its `max` threshold. -/
def malformedBand : SimpleBand := { score := some 99, label := some "broken" }

/-- Three consecutive days of score 90. -/
def threeGoodDays : List ScoredDay :=
  [ { date := some "d1", score := 90, label := "excellent" }
  , { date := some "d2", score := 90, label := "excellent" }
  , { date := some "d3", score := 90, label := "excellent" } ]

lemma pyRound_intCast (n : ℤ) : pyRound (n : ℚ) = n := by
  unfold pyRound
  rw [Int.floor_intCast]
  norm_num

lemma pyRound_bounds (x : ℚ) : x - 1/2 ≤ (pyRound x : ℚ) ∧ (pyRound x : ℚ) ≤ x + 1/2 := by
  have h1 : (Int.floor x : ℚ) ≤ x := Int.floor_le x
  have h2 : x < Int.floor x + 1 := Int.lt_floor_add_one x
  unfold pyRound
  split_ifs with ha hb hc <;> constructor <;> push_cast <;> linarith

/-- C1 (corrected): for every profile and day, the label of a scored day is
the fixed 5-tier scale applied to the *unrounded* weighted score, while the
stored `score` field is that value rounded; the unrounded value is within
half a point of the stored score, so the label can disagree with the scale
of the rounded score only when rounding crosses a tier boundary. -/
theorem c1_label_from_unrounded_score (profile : ActivityProfile) (day : DayWeather) :
    (scoreDayProfile profile day).label = _label_from_score (dayFinalScore profile day) ∧
    (scoreDayProfile profile day).score = pyRound (dayFinalScore profile day) ∧
    |dayFinalScore profile day - ((scoreDayProfile profile day).score : ℚ)| ≤ 1/2 := by
  refine ⟨rfl, rfl, ?_⟩
  have h := pyRound_bounds (dayFinalScore profile day)
  rw [abs_le]
  constructor
  · have := h.2
    show -(1/2) ≤ dayFinalScore profile day - (pyRound (dayFinalScore profile day) : ℚ)
    linarith
  · have := h.1
    show dayFinalScore profile day - (pyRound (dayFinalScore profile day) : ℚ) ≤ 1/2
    linarith

/-- C1 counterexample: on Lake Te Anau, a day of wind 30, gust 50, rain 10
and temperatures 10-14 has unrounded weighted score 715/18 (about 39.72);
the stored score rounds to 40, whose scale tier is "marginal", yet the
returned label is "no-go" — the label is not the scale of the rounded
score. -/
theorem c1_counterexample :
    (scoreDayProfile teAnauBoatingMoana c1Day).score = 40 ∧
    (scoreDayProfile teAnauBoatingMoana c1Day).label = "no-go" ∧
    _label_from_score (((scoreDayProfile teAnauBoatingMoana c1Day).score : ℤ) : ℚ) = "marginal" ∧
    (scoreDayProfile teAnauBoatingMoana c1Day).label ≠
      _label_from_score (((scoreDayProfile teAnauBoatingMoana c1Day).score : ℤ) : ℚ) := by
  with_unfolding_all decide

/-- C2 (corrected): a profile in which no category can contribute a weighted
sub-score (wind, rain and temperature weights not positive, and flow either
not positively weighted or without a `flow_bands` list) scores every day as
the fixed neutral 50 without any division by zero — but the label attached
is "marginal" (the 5-tier label of 50), not "unknown". -/
theorem c2_degenerate_profile_neutral (profile : ActivityProfile) (day : DayWeather)
    (hw : profile.weights.wind ≤ 0) (hr : profile.weights.rain ≤ 0)
    (ht : profile.weights.temp ≤ 0)
    (hf : profile.weights.flow ≤ 0 ∨ profile.flow_bands = none) :
    (scoreDayProfile profile day).score = 50 ∧
    (scoreDayProfile profile day).label = "marginal" := by
  have hfi : dayFlowInfo profile day = none := by
    unfold dayFlowInfo
    rcases hf with hf | hf
    · rw [if_neg]
      rintro ⟨h1, -⟩
      exact absurd h1 (not_lt.mpr hf)
    · rw [if_neg]
      rintro ⟨-, h2⟩
      rw [hf] at h2
      exact absurd h2 (by simp)
  have hcs : dayComponents profile day = [] := by
    unfold dayComponents
    rw [if_neg (not_lt.mpr hw), if_neg (not_lt.mpr hr), if_neg (not_lt.mpr ht), hfi]
    rfl
  have hfs : dayFinalScore profile day = 50 := by
    unfold dayFinalScore
    rw [hcs]
    rfl
  constructor
  · show pyRound (dayFinalScore profile day) = 50
    rw [hfs]
    with_unfolding_all decide
  · show _label_from_score (dayFinalScore profile day) = "marginal"
    rw [hfs]
    with_unfolding_all decide

/-- C2 witness: the all-default profile (empty weights dict) on a field-free
day scores 50 with label "marginal". -/
theorem c2_witness :
    (scoreDayProfile degenerateProfile emptyDay).score = 50 ∧
    (scoreDayProfile degenerateProfile emptyDay).label = "marginal" :=
  c2_degenerate_profile_neutral degenerateProfile emptyDay (by with_unfolding_all decide)
    (by with_unfolding_all decide) (by with_unfolding_all decide)
    (Or.inl (by with_unfolding_all decide))

/-- C2 counterexample: the degenerate profile yields label "marginal", not
the label "unknown" the claim asserts. -/
theorem c2_counterexample :
    (scoreDayProfile degenerateProfile emptyDay).score = 50 ∧
    (scoreDayProfile degenerateProfile emptyDay).label = "marginal" ∧
    (scoreDayProfile degenerateProfile emptyDay).label ≠ "unknown" := by
  with_unfolding_all decide

/-- C3 (corrected): scoring never crashes on a day with absent optional
fields — `scoreDayProfile` is total — but the absent value is defaulted to
`0` and the category's sub-score is *computed from that default*, not
degraded to a neutral sub-score: for every profile and day, dropping the
gust key (resp. the temperature keys, resp. both flow keys) produces
exactly the observable output of supplying the value `0`. -/
theorem c3_missing_fields_scored_as_zero (profile : ActivityProfile) (day : DayWeather) :
    dayObservables (scoreDayProfile profile { day with gust_kmh := none }) =
      dayObservables (scoreDayProfile profile { day with gust_kmh := some 0 }) ∧
    dayObservables (scoreDayProfile profile
        { day with temp_min := none, temp_max := none, temp_c := none }) =
      dayObservables (scoreDayProfile profile
        { day with temp_min := some 0, temp_max := some 0, temp_c := none }) ∧
    dayObservables (scoreDayProfile profile { day with river_flow := none, flow := none }) =
      dayObservables (scoreDayProfile profile { day with river_flow := some 0, flow := none }) :=
  ⟨rfl, rfl, rfl⟩

/-- C3 counterexample: a Waikaia day carrying no river-flow key at all gets
the flow sub-score 95 ("prime", the band matched by the silent default 0),
not a neutral default of 50. -/
theorem c3_counterexample :
    c3Day.river_flow = none ∧ c3Day.flow = none ∧
    (scoreDayProfile waikaiaRiverFishing c3Day).reasons_flow.map BandResult.score = some 95 ∧
    (scoreDayProfile waikaiaRiverFishing c3Day).reasons_flow.map BandResult.label = some "prime" ∧
    ((95 : ℚ) = 50) = False := by
  with_unfolding_all decide

/-- C4 (corrected): a weighted category whose band list is missing is not an
error — the category is silently scored with the neutral band-scorer default
(50, "unknown"); and a malformed band (one without its `max` threshold) is
silently skipped by the matching scan rather than rejected. -/
theorem c4_missing_bands_silently_defaulted (profile : ActivityProfile) (day : DayWeather) :
    (profile.wind_bands = [] →
      (scoreDayProfile profile day).reasons_wind =
        { score := 50, label := "unknown", description := "No wind band matched." }) ∧
    (profile.rain_bands = [] →
      (scoreDayProfile profile day).reasons_rain =
        { score := 50, label := "unknown", description := "No band matched." }) ∧
    (∀ (value : ℚ) (b : SimpleBand) (bs : List SimpleBand), b.max = none →
      findSimpleBand value (b :: bs) = findSimpleBand value bs) := by
  refine ⟨?_, ?_, ?_⟩
  · intro h
    show _score_wind_bands (day.wind_kmh.getD 0) (day.gust_kmh.getD 0) profile.wind_bands = _
    rw [h]
    rfl
  · intro h
    show _score_simple_bands (day.rain_mm.getD 0) profile.rain_bands = _
    rw [h]
    rfl
  · intro value b bs h
    simp only [findSimpleBand, h]

/-- C4 witness: a profile weighting wind fully with no band lists scores the
wind category as the silent neutral default, and a band that forgot `max` is
skipped by the scan. -/
theorem c4_witness :
    (scoreDayProfile noBandsProfile emptyDay).reasons_wind =
      { score := 50, label := "unknown", description := "No wind band matched." } ∧
    findSimpleBand 5 [malformedBand] = findSimpleBand 5 [] :=
  ⟨(c4_missing_bands_silently_defaulted noBandsProfile emptyDay).1 rfl,
   (c4_missing_bands_silently_defaulted noBandsProfile emptyDay).2.2 5 malformedBand [] rfl⟩

/-- C4 counterexample: scoring a profile that weights wind fully but has no
wind band list returns a normal scored day (sub-score 50, label "unknown",
overall score 50) instead of raising any error, and a list holding only a
malformed band is still scored (the last-band fallback even selects the
malformed band) instead of being rejected. -/
theorem c4_counterexample :
    (scoreDayProfile noBandsProfile emptyDay).score = 50 ∧
    (scoreDayProfile noBandsProfile emptyDay).reasons_wind.label = "unknown" ∧
    _score_simple_bands 5 [malformedBand] =
      { score := 99, label := "broken", description := "" } := by
  with_unfolding_all decide

/-- C5 (confirmed): an unknown region identifier, or an unknown activity
identifier under a known region, makes both `score_day` and `score_period`
fail with the corresponding error for *every* input day or day sequence —
no day is scored, no partial result is built, and no default profile is
substituted (the error is the same whatever the days argument is). -/
theorem c5_unknown_identifiers_error :
    (∀ region_id, lookupRegion region_id = none →
      ∀ activity_id day days,
        score_day region_id activity_id day =
          Except.error ("Unknown region_id: " ++ region_id) ∧
        score_period region_id activity_id days =
          Except.error ("Unknown region_id: " ++ region_id)) ∧
    (∀ region_id region activity_id, lookupRegion region_id = some region →
      lookupActivity region activity_id = none →
      ∀ day days,
        score_day region_id activity_id day =
          Except.error ("Unknown activity_id " ++ activity_id ++ " for region " ++ region_id) ∧
        score_period region_id activity_id days =
          Except.error ("Unknown activity_id " ++ activity_id ++ " for region " ++ region_id)) := by
  constructor
  · intro region_id h activity_id day days
    constructor
    · unfold score_day
      rw [h]
    · unfold score_period
      rw [h]
  · intro region_id region activity_id h1 h2 day days
    constructor
    · simp only [score_day, h1, h2]
    · simp only [score_period, h1, h2]

/-- C5 witness: the unknown region "atlantis" and the unknown activity
"kayaking" under the known region "hunter" are both rejected, scoring
nothing. -/
theorem c5_witness :
    score_day "atlantis" "boating_fizz" emptyDay =
      Except.error ("Unknown region_id: " ++ "atlantis") ∧
    score_period "hunter" "kayaking" [emptyDay] =
      Except.error ("Unknown activity_id " ++ "kayaking" ++ " for region " ++ "hunter") :=
  ⟨(c5_unknown_identifiers_error.1 "atlantis" rfl "boating_fizz" emptyDay []).1,
   (c5_unknown_identifiers_error.2 "hunter" hunterRegion "kayaking" rfl rfl
      emptyDay [emptyDay]).2⟩

/-- C9 (confirmed): under the threshold-overlay classification, a missing
best window classifies as "no-window"; otherwise the rounded average is
compared with `>=` against the go and then the maybe threshold, so ties at
an exact boundary take the higher tier — in particular an average score
exactly equal to the (integer) go threshold classifies as "go". -/
theorem c9_overlay_classification :
    (∀ go_threshold maybe_threshold : ℤ,
      classifyOverlay none go_threshold maybe_threshold = "no-window") ∧
    (∀ (w : Window) (go_threshold maybe_threshold : ℤ),
      go_threshold ≤ pyRound w.avg_score →
      classifyOverlay (some w) go_threshold maybe_threshold = "go") ∧
    (∀ (w : Window) (go_threshold maybe_threshold : ℤ),
      pyRound w.avg_score < go_threshold → maybe_threshold ≤ pyRound w.avg_score →
      classifyOverlay (some w) go_threshold maybe_threshold = "maybe-go") ∧
    (∀ (w : Window) (go_threshold maybe_threshold : ℤ),
      pyRound w.avg_score < go_threshold → pyRound w.avg_score < maybe_threshold →
      classifyOverlay (some w) go_threshold maybe_threshold = "hold") ∧
    (∀ (w : Window) (go_threshold maybe_threshold : ℤ),
      w.avg_score = (go_threshold : ℚ) →
      classifyOverlay (some w) go_threshold maybe_threshold = "go") := by
  refine ⟨fun _ _ => rfl, ?_, ?_, ?_, ?_⟩
  · intro w g m h
    show (if g ≤ pyRound w.avg_score then "go"
      else if m ≤ pyRound w.avg_score then "maybe-go" else "hold") = "go"
    rw [if_pos h]
  · intro w g m h1 h2
    show (if g ≤ pyRound w.avg_score then "go"
      else if m ≤ pyRound w.avg_score then "maybe-go" else "hold") = "maybe-go"
    rw [if_neg (not_le.mpr h1), if_pos h2]
  · intro w g m h1 h2
    show (if g ≤ pyRound w.avg_score then "go"
      else if m ≤ pyRound w.avg_score then "maybe-go" else "hold") = "hold"
    rw [if_neg (not_le.mpr h1), if_neg (not_le.mpr h2)]
  · intro w g m h
    show (if g ≤ pyRound w.avg_score then "go"
      else if m ≤ pyRound w.avg_score then "maybe-go" else "hold") = "go"
    rw [h, pyRound_intCast, if_pos le_rfl]

/-- C9 witness: a 2-day window averaging exactly the go threshold 80
classifies as "go" under thresholds (80, 70). -/
theorem c9_witness :
    classifyOverlay (some { start_date := none, end_date := none, length := 2, avg_score := 80 })
      80 70 = "go" :=
  c9_overlay_classification.2.2.2.2
    { start_date := none, end_date := none, length := 2, avg_score := 80 } 80 70 (by norm_num)


lemma periodVerdict_cases (min_good_days : ℤ) (min_score_for_good : ℚ) (b : Option Window) :
    (periodVerdict min_good_days min_score_for_good b = "go" ∨
     periodVerdict min_good_days min_score_for_good b = "maybe-go" ∨
     periodVerdict min_good_days min_score_for_good b = "no-window") ∧
    periodVerdict min_good_days min_score_for_good b ≠ "hold" ∧
    (periodVerdict min_good_days min_score_for_good b = "no-window" ↔ b = none) ∧
    (∀ w, b = some w →
      (periodVerdict min_good_days min_score_for_good b = "go" ↔
        (min_good_days ≤ (w.length : ℤ) ∧ min_score_for_good + 10 ≤ w.avg_score))) := by
  cases b with
  | none =>
    refine ⟨Or.inr (Or.inr rfl), by simp [periodVerdict], by simp [periodVerdict], ?_⟩
    intro w hw
    exact absurd hw (by simp)
  | some bw =>
    by_cases hc : min_good_days ≤ (bw.length : ℤ) ∧ min_score_for_good + 10 ≤ bw.avg_score
    · have hv : periodVerdict min_good_days min_score_for_good (some bw) = "go" := by
        rw [periodVerdict]
        exact if_pos hc
      refine ⟨Or.inl hv, by rw [hv]; simp, by rw [hv]; simp, ?_⟩
      intro w hw
      rw [Option.some.injEq] at hw
      subst hw
      rw [hv]
      simp [hc]
    · have hv : periodVerdict min_good_days min_score_for_good (some bw) = "maybe-go" := by
        rw [periodVerdict]
        exact if_neg hc
      refine ⟨Or.inr (Or.inl hv), by rw [hv]; simp, by rw [hv]; simp, ?_⟩
      intro w hw
      rw [Option.some.injEq] at hw
      subst hw
      rw [hv]
      constructor
      · intro hx
        exact absurd hx (by simp)
      · intro hx
        exact absurd hx hc

/-- C10 (confirmed): whenever `score_period` succeeds, its expedition
verdict is exactly one of "go", "maybe-go", "no-window" — never "hold";
"no-window" holds exactly when no best window exists, and with a best
window the verdict is "go" exactly when the window's length reaches the
profile's `min_good_days` and its unrounded average score reaches
`min_score_for_good + 10`, and "maybe-go" otherwise. -/
theorem c10_period_verdict_never_hold (region_id activity_id : String)
    (days : List DayWeather) (res : PeriodResult)
    (h : score_period region_id activity_id days = Except.ok res) :
    (res.expedition_verdict = "go" ∨ res.expedition_verdict = "maybe-go" ∨
      res.expedition_verdict = "no-window") ∧
    res.expedition_verdict ≠ "hold" ∧
    (res.expedition_verdict = "no-window" ↔ res.best_window = none) ∧
    (∃ region profile, lookupRegion region_id = some region ∧
      lookupActivity region activity_id = some profile ∧
      ∀ w, res.best_window = some w →
        (res.expedition_verdict = "go" ↔
          (profileMinGoodDays profile ≤ (w.length : ℤ) ∧
           profileMinScoreForGood profile + 10 ≤ w.avg_score))) := by
  cases hr : lookupRegion region_id with
  | none =>
    rw [score_period, hr] at h
    exact absurd h (by simp)
  | some region =>
    cases ha : lookupActivity region activity_id with
    | none =>
      rw [score_period, hr] at h
      simp only [ha] at h
      exact absurd h (by simp)
    | some profile =>
      rw [score_period, hr] at h
      simp only [ha, Except.ok.injEq] at h
      subst h
      have key := periodVerdict_cases (profileMinGoodDays profile)
        (profileMinScoreForGood profile)
        (_choose_best_window (_find_windows
          ((days.map (scoreDayProfile profile)).map toScoredDay)
          (profileMinScoreForGood profile) (profileMinWindowLength profile)))
      exact ⟨key.1, key.2.1, key.2.2.1, region, profile, rfl, ha, key.2.2.2⟩

/-- C10 witness: scoring an empty period for the Hunter fizz-boat profile
succeeds with verdict "no-window", which is indeed not "hold". -/
theorem c10_witness :
    ({ days := [], windows := [], best_window := none,
       expedition_verdict := "no-window" } : PeriodResult).expedition_verdict ≠ "hold" :=
  (c10_period_verdict_never_hold "hunter" "boating_fizz" []
    { days := [], windows := [], best_window := none,
      expedition_verdict := "no-window" } rfl).2.1

lemma winKeyLe_refl (a : Window) : winKeyLe a a := Or.inr ⟨rfl, le_refl _⟩

lemma winKeyLe_trans {a b c : Window} (h1 : winKeyLe a b) (h2 : winKeyLe b c) : winKeyLe a c := by
  unfold winKeyLe at *
  rcases h1 with h1 | ⟨h1, h1a⟩ <;> rcases h2 with h2 | ⟨h2, h2a⟩
  · exact Or.inl (lt_trans h1 h2)
  · exact Or.inl (h2 ▸ h1)
  · exact Or.inl (h1 ▸ h2)
  · exact Or.inr ⟨h1.trans h2, le_trans h1a h2a⟩

lemma winKeyLe_of_not_lt {a b : Window}
    (h : ¬(a.length < b.length ∨ (a.length = b.length ∧ a.avg_score < b.avg_score))) :
    winKeyLe b a := by
  push_neg at h
  obtain ⟨h1, h2⟩ := h
  rcases Nat.lt_or_ge b.length a.length with hl | hl
  · exact Or.inl hl
  · have he : a.length = b.length := le_antisymm hl h1
    exact Or.inr ⟨he.symm, h2 he⟩

lemma mem_insertWindowDesc {y w : Window} {l : List Window} :
    y ∈ insertWindowDesc w l ↔ y = w ∨ y ∈ l := by
  induction l with
  | nil => simp [insertWindowDesc]
  | cons x xs ih =>
    rw [insertWindowDesc]
    split_ifs with hc
    · rw [List.mem_cons, ih, List.mem_cons]
      tauto
    · rw [List.mem_cons, List.mem_cons]

lemma insertWindowDesc_sorted {w : Window} {l : List Window}
    (h : l.Pairwise (fun a b => winKeyLe b a)) :
    (insertWindowDesc w l).Pairwise (fun a b => winKeyLe b a) := by
  induction l with
  | nil => simp [insertWindowDesc]
  | cons x xs ih =>
    rw [List.pairwise_cons] at h
    rw [insertWindowDesc]
    split_ifs with hc
    · rw [List.pairwise_cons]
      refine ⟨?_, ih h.2⟩
      intro y hy
      rw [mem_insertWindowDesc] at hy
      rcases hy with rfl | hy
      · rcases hc with hc | ⟨hc1, hc2⟩
        · exact Or.inl hc
        · exact Or.inr ⟨hc1, le_of_lt hc2⟩
      · exact h.1 y hy
    · rw [List.pairwise_cons]
      refine ⟨?_, List.pairwise_cons.mpr h⟩
      intro y hy
      rcases List.mem_cons.mp hy with rfl | hy
      · exact winKeyLe_of_not_lt hc
      · exact winKeyLe_trans (h.1 y hy) (winKeyLe_of_not_lt hc)

lemma mem_sortWindowsDesc {y : Window} {l : List Window} :
    y ∈ sortWindowsDesc l ↔ y ∈ l := by
  induction l with
  | nil => simp [sortWindowsDesc]
  | cons x xs ih =>
    show y ∈ insertWindowDesc x (sortWindowsDesc xs) ↔ _
    rw [mem_insertWindowDesc, ih, List.mem_cons]

lemma sortWindowsDesc_sorted (l : List Window) :
    (sortWindowsDesc l).Pairwise (fun a b => winKeyLe b a) := by
  induction l with
  | nil => simp [sortWindowsDesc]
  | cons x xs ih => exact insertWindowDesc_sorted ih

/-- C8 (confirmed): on a non-empty window list, `_choose_best_window`
returns a member that is greatest under the ordering with primary key
`length` and secondary key `avg_score` (both descending); a longer window
with lower average beats a shorter one with higher average (a length-3
window averaging 60 loses to a length-5 window averaging 40); the empty
list yields `none`. -/
theorem c8_choose_best_window (windows : List Window) :
    (windows ≠ [] →
      ∃ w, _choose_best_window windows = some w ∧ w ∈ windows ∧
        ∀ x ∈ windows, winKeyLe x w) ∧
    _choose_best_window
      [ { start_date := some "a", end_date := some "b", length := 3, avg_score := 60 }
      , { start_date := some "c", end_date := some "d", length := 5, avg_score := 40 } ] =
      some { start_date := some "c", end_date := some "d", length := 5, avg_score := 40 } ∧
    _choose_best_window [] = none := by
  refine ⟨?_, by with_unfolding_all decide, rfl⟩
  intro hne
  cases hw : windows with
  | nil => exact absurd hw hne
  | cons w0 ws =>
    subst hw
    have hmem : w0 ∈ sortWindowsDesc (w0 :: ws) := mem_sortWindowsDesc.mpr (List.mem_cons_self w0 ws)
    cases hs : sortWindowsDesc (w0 :: ws) with
    | nil => rw [hs] at hmem; exact absurd hmem (by simp)
    | cons h t =>
      refine ⟨h, ?_, ?_, ?_⟩
      · show (sortWindowsDesc (w0 :: ws)).head? = some h
        rw [hs]
        rfl
      · exact mem_sortWindowsDesc.mp (hs ▸ List.mem_cons_self h t)
      · intro x hx
        have hx' : x ∈ sortWindowsDesc (w0 :: ws) := mem_sortWindowsDesc.mpr hx
        rw [hs] at hx'
        rcases List.mem_cons.mp hx' with rfl | hx'
        · exact winKeyLe_refl x
        · have hp := sortWindowsDesc_sorted (w0 :: ws)
          rw [hs, List.pairwise_cons] at hp
          exact hp.1 x hx'

/-- C8 witness: on a singleton list the chosen window is its only element,
which trivially dominates the list. -/
theorem c8_witness :
    ∃ w, _choose_best_window
        [{ start_date := none, end_date := none, length := 1, avg_score := 50 }] = some w ∧
      w ∈ [({ start_date := none, end_date := none, length := 1, avg_score := 50 } : Window)] ∧
      ∀ x ∈ [({ start_date := none, end_date := none, length := 1, avg_score := 50 } : Window)],
        winKeyLe x w :=
  (c8_choose_best_window
    [{ start_date := none, end_date := none, length := 1, avg_score := 50 }]).1 (by simp)

lemma qualRuns_nil (q : ScoredDay → Bool) : qualRuns q [] = [] := by
  simp [qualRuns]

lemma qualRuns_cons_pos {q : ScoredDay → Bool} {d : ScoredDay} (ds : List ScoredDay)
    (hq : q d = true) :
    qualRuns q (d :: ds) = ((d :: ds).takeWhile q) :: qualRuns q ((d :: ds).dropWhile q) := by
  rw [qualRuns]
  simp [hq]

lemma qualRuns_cons_neg {q : ScoredDay → Bool} {d : ScoredDay} (ds : List ScoredDay)
    (hq : q d = false) :
    qualRuns q (d :: ds) = qualRuns q ds := by
  rw [qualRuns]
  simp [hq]

lemma findWindowsGo_spec (q : ScoredDay → Bool) (ml : ℤ) (ds : List ScoredDay) :
    (findWindowsGo q ml ds none = runsWindows ml (qualRuns q ds)) ∧
    (∀ run, findWindowsGo q ml ds (some run) =
      runsWindows ml ((run ++ ds.takeWhile q) :: qualRuns q (ds.dropWhile q))) := by
  induction ds with
  | nil =>
    refine ⟨by rw [qualRuns_nil]; rfl, ?_⟩
    intro run
    show (if ml ≤ (run.length : ℤ) then [mkWindow run] else []) = _
    rw [List.takeWhile_nil, List.dropWhile_nil, qualRuns_nil, runsWindows,
      runsWindows, List.append_nil, List.append_nil]
  | cons d ds ih =>
    constructor
    · cases hq : q d with
      | true =>
        rw [show findWindowsGo q ml (d :: ds) none =
            (if q d then findWindowsGo q ml ds (some [d]) else findWindowsGo q ml ds none)
          from rfl]
        rw [hq, if_pos rfl, ih.2 [d], qualRuns_cons_pos ds hq,
          List.takeWhile_cons_of_pos hq, List.dropWhile_cons_of_pos hq]
        rfl
      | false =>
        rw [show findWindowsGo q ml (d :: ds) none =
            (if q d then findWindowsGo q ml ds (some [d]) else findWindowsGo q ml ds none)
          from rfl]
        rw [hq, if_neg (by simp), ih.1, qualRuns_cons_neg ds hq]
    · intro run
      cases hq : q d with
      | true =>
        rw [show findWindowsGo q ml (d :: ds) (some run) =
            (if q d then findWindowsGo q ml ds (some (run ++ [d]))
             else (if ml ≤ (run.length : ℤ) then [mkWindow run] else []) ++
               findWindowsGo q ml ds none)
          from rfl]
        rw [hq, if_pos rfl, ih.2 (run ++ [d]),
          List.takeWhile_cons_of_pos hq, List.dropWhile_cons_of_pos hq,
          List.append_assoc]
        rfl
      | false =>
        rw [show findWindowsGo q ml (d :: ds) (some run) =
            (if q d then findWindowsGo q ml ds (some (run ++ [d]))
             else (if ml ≤ (run.length : ℤ) then [mkWindow run] else []) ++
               findWindowsGo q ml ds none)
          from rfl]
        rw [hq, if_neg (by simp), ih.1,
          List.takeWhile_cons_of_neg (by simp [hq]), List.dropWhile_cons_of_neg (by simp [hq]),
          qualRuns_cons_neg ds hq, List.append_nil]
        rfl

lemma dropWhile_head_false {q : ScoredDay → Bool} {l : List ScoredDay} {e : ScoredDay}
    {t : List ScoredDay} (h : l.dropWhile q = e :: t) : q e = false := by
  induction l with
  | nil => simp at h
  | cons x xs ih =>
    rw [List.dropWhile_cons] at h
    split_ifs at h with hx
    · exact ih h
    · rw [List.cons.injEq] at h
      rw [← h.1]
      exact Bool.eq_false_iff.mpr hx

lemma countP_takeWhile_dropWhile (q : ScoredDay → Bool) (l : List ScoredDay) :
    l.countP q = (l.takeWhile q).length + (l.dropWhile q).countP q := by
  conv_lhs => rw [← List.takeWhile_append_dropWhile q l]
  rw [List.countP_append]
  congr 1
  exact List.countP_eq_length.mpr (fun a ha => List.mem_takeWhile_imp ha)

lemma sepRuns_cons_not {q : ScoredDay → Bool} {d : ScoredDay} {ds : List ScoredDay}
    {rs : List (List ScoredDay)} (hq : q d = false) (h : SepRuns q ds rs) :
    SepRuns q (d :: ds) rs := by
  cases rs with
  | nil =>
    intro x hx
    rcases List.mem_cons.mp hx with rfl | hx
    · exact hq
    · exact h x hx
  | cons r rs =>
    obtain ⟨g, rest, hsplit, hg, hr, hrq, hsep, hrec⟩ := h
    refine ⟨d :: g, rest, by rw [hsplit]; rfl, ?_, hr, hrq, hsep, hrec⟩
    intro x hx
    rcases List.mem_cons.mp hx with rfl | hx
    · exact hq
    · exact hg x hx

lemma qualRuns_props (q : ScoredDay → Bool) :
    ∀ n (ds : List ScoredDay), ds.length ≤ n →
      SepRuns q ds (qualRuns q ds) ∧
      (((qualRuns q ds).map List.length).sum = ds.countP q) ∧
      (∀ r ∈ qualRuns q ds, r ≠ []) := by
  intro n
  induction n with
  | zero =>
    intro ds hds
    have hnil : ds = [] := List.length_eq_zero.mp (Nat.le_zero.mp hds)
    subst hnil
    rw [qualRuns_nil]
    exact ⟨fun d hd => absurd hd (by simp), by simp, fun r hr => absurd hr (by simp)⟩
  | succ n ihn =>
    intro ds hds
    cases ds with
    | nil =>
      rw [qualRuns_nil]
      exact ⟨fun d hd => absurd hd (by simp), by simp, fun r hr => absurd hr (by simp)⟩
    | cons d ds' =>
      rw [List.length_cons, Nat.succ_le_succ_iff] at hds
      cases hq : q d with
      | false =>
        rw [qualRuns_cons_neg ds' hq]
        have ih := ihn ds' hds
        refine ⟨sepRuns_cons_not hq ih.1, ?_, ih.2.2⟩
        rw [List.countP_cons]
        simp [hq, ih.2.1]
      | true =>
        have hlen : ((d :: ds').dropWhile q).length ≤ n := by
          rw [List.dropWhile_cons_of_pos hq]
          exact le_trans (List.dropWhile_sublist q).length_le hds
        have ihd := ihn ((d :: ds').dropWhile q) hlen
        rw [qualRuns_cons_pos ds' hq]
        refine ⟨?_, ?_, ?_⟩
        · refine ⟨[], (d :: ds').dropWhile q, ?_, fun x hx => absurd hx (by simp), ?_,
            fun x hx => List.mem_takeWhile_imp hx, ?_, ihd.1⟩
          · rw [List.nil_append, List.takeWhile_append_dropWhile]
          · rw [List.takeWhile_cons_of_pos hq]
            simp
          · intro hrs
            cases hdw : (d :: ds').dropWhile q with
            | nil => rw [hdw, qualRuns_nil] at hrs; exact absurd rfl hrs
            | cons e t => exact ⟨e, t, rfl, dropWhile_head_false hdw⟩
        · rw [List.map_cons, List.sum_cons, ihd.2.1, ← countP_takeWhile_dropWhile]
        · intro r hr
          rcases List.mem_cons.mp hr with rfl | hr
          · rw [List.takeWhile_cons_of_pos hq]
            simp
          · exact ihd.2.2 r hr

lemma takeWhile_append_of_mem_false {q : ScoredDay → Bool} {A B : List ScoredDay}
    {a : ScoredDay} (ha : a ∈ A) (hqa : q a = false) :
    (A ++ B).takeWhile q = A.takeWhile q := by
  rw [List.takeWhile_append, if_neg]
  intro hlen
  have heq : A.takeWhile q = A := (List.takeWhile_prefix q).eq_of_length hlen
  have := List.takeWhile_eq_self_iff.mp heq a ha
  rw [hqa] at this
  exact absurd this (by simp)

lemma rtakeWhile_append_right {q : ScoredDay → Bool} {A B : List ScoredDay}
    {b : ScoredDay} (hb : b ∈ B) (hqb : q b = false) :
    (A ++ B).rtakeWhile q = B.rtakeWhile q := by
  rw [List.rtakeWhile, List.rtakeWhile, List.reverse_append]
  congr 1
  exact takeWhile_append_of_mem_false (List.mem_reverse.mpr hb) hqb

lemma rtakeWhile_cons_neg {q : ScoredDay → Bool} {d : ScoredDay} {ds : List ScoredDay}
    (hq : q d = false) : (d :: ds).rtakeWhile q = ds.rtakeWhile q := by
  by_cases hall : ∀ x ∈ ds, q x = true
  · rw [show d :: ds = [d] ++ ds from rfl, List.rtakeWhile, List.reverse_append,
      List.takeWhile_append_of_pos
        (fun a ha => by simp [hall a (List.mem_reverse.mp ha)]),
      show ([d] : List ScoredDay).reverse = [d] from rfl,
      List.takeWhile_cons_of_neg (by simp [hq]), List.append_nil, List.reverse_reverse]
    rw [List.rtakeWhile_eq_self_iff.mpr (fun x hx => by simp [hall x hx])]
  · push_neg at hall
    obtain ⟨x, hx, hqx⟩ := hall
    rw [show d :: ds = [d] ++ ds from rfl]
    exact rtakeWhile_append_right hx (Bool.eq_false_iff.mpr hqx)

lemma rtakeWhile_mem_qualRuns (q : ScoredDay → Bool) :
    ∀ n (ds : List ScoredDay), ds.length ≤ n →
      ds.rtakeWhile q ≠ [] → ds.rtakeWhile q ∈ qualRuns q ds := by
  intro n
  induction n with
  | zero =>
    intro ds hds hne
    have hnil : ds = [] := List.length_eq_zero.mp (Nat.le_zero.mp hds)
    subst hnil
    exact absurd (List.rtakeWhile_nil (p := q)) hne
  | succ n ihn =>
    intro ds hds hne
    cases ds with
    | nil => exact absurd (List.rtakeWhile_nil (p := q)) hne
    | cons d ds' =>
      rw [List.length_cons, Nat.succ_le_succ_iff] at hds
      cases hq : q d with
      | false =>
        rw [rtakeWhile_cons_neg hq] at hne ⊢
        rw [qualRuns_cons_neg ds' hq]
        exact ihn ds' hds hne
      | true =>
        by_cases hall : ∀ x ∈ (d :: ds'), q x = true
        · have htw : (d :: ds').rtakeWhile q = d :: ds' :=
            List.rtakeWhile_eq_self_iff.mpr (fun x hx => by simp [hall x hx])
          have htk : (d :: ds').takeWhile q = d :: ds' :=
            List.takeWhile_eq_self_iff.mpr (fun x hx => by simp [hall x hx])
          have hdp : (d :: ds').dropWhile q = [] :=
            List.dropWhile_eq_nil_iff.mpr (fun x hx => by simp [hall x hx])
          rw [htw, qualRuns_cons_pos ds' hq, htk, hdp, qualRuns_nil]
          exact List.mem_singleton.mpr rfl
        · push_neg at hall
          obtain ⟨x, hx, hqx⟩ := hall
          have hqx' : q x = false := Bool.eq_false_iff.mpr hqx
          cases hdw : (d :: ds').dropWhile q with
          | nil =>
            have := List.dropWhile_eq_nil_iff.mp hdw x hx
            rw [hqx'] at this
            exact absurd this (by simp)
          | cons e t =>
            have hqe : q e = false := dropWhile_head_false hdw
            have hsplit : d :: ds' = (d :: ds').takeWhile q ++ (e :: t) := by
              conv_lhs => rw [← List.takeWhile_append_dropWhile q (d :: ds')]
              rw [hdw]
            have htr : (d :: ds').rtakeWhile q = (e :: t).rtakeWhile q := by
              conv_lhs => rw [hsplit]
              exact rtakeWhile_append_right (List.mem_cons_self e t) hqe
            have hlet : (e :: t).length ≤ n := by
              have h1 : (e :: t).length ≤ ds'.length := by
                rw [← hdw, List.dropWhile_cons_of_pos hq]
                exact (List.dropWhile_sublist q).length_le
              exact le_trans h1 hds
            rw [htr] at hne ⊢
            rw [qualRuns_cons_pos ds' hq, hdw]
            exact List.mem_cons.mpr (Or.inr (ihn (e :: t) hlet hne))

lemma mkWindow_mem_runsWindows {ml : ℤ} {r : List ScoredDay} {rs : List (List ScoredDay)}
    (hr : r ∈ rs) (hlen : ml ≤ (r.length : ℤ)) : mkWindow r ∈ runsWindows ml rs := by
  induction rs with
  | nil => exact absurd hr (by simp)
  | cons s ss ih =>
    rw [runsWindows]
    rcases List.mem_cons.mp hr with rfl | hr'
    · rw [if_pos hlen]
      exact List.mem_append_left _ (List.mem_singleton.mpr rfl)
    · exact List.mem_append_right _ (ih hr')

lemma runsWindows_one {rs : List (List ScoredDay)} (h : ∀ r ∈ rs, r ≠ []) :
    runsWindows 1 rs = rs.map mkWindow := by
  induction rs with
  | nil => rfl
  | cons r rs ih =>
    rw [runsWindows, List.map_cons]
    have hr : r ≠ [] := h r (List.mem_cons_self r rs)
    have hlen : (1 : ℤ) ≤ (r.length : ℤ) := by
      have := List.length_pos.mpr hr
      exact_mod_cast this
    rw [if_pos hlen, ih (fun x hx => h x (List.mem_cons_of_mem r hx))]
    rfl

/-- C6 (confirmed): the window scan never drops a trailing qualifying run —
for any qualification predicate (covering both the numeric floor of
`_find_windows` and the label floor of `find_multi_day_windows`), whenever
the maximal trailing qualifying run (`rtakeWhile`) is non-empty and at least
`min_length` long, its window is among the results; concretely, three days
of score 90 at `min_score = 80`, `min_length = 2` yield exactly one window
of length 3; and the empty input yields the empty window list, not an
error. -/
theorem c6_trailing_run_flushed :
    (∀ (q : ScoredDay → Bool) (min_length : ℤ) (days : List ScoredDay),
      days.rtakeWhile q ≠ [] →
      min_length ≤ ((days.rtakeWhile q).length : ℤ) →
      mkWindow (days.rtakeWhile q) ∈ findWindowsBy q days min_length) ∧
    (_find_windows threeGoodDays 80 2 =
      [{ start_date := some "d1", end_date := some "d3", length := 3, avg_score := 90 }]) ∧
    (∀ (min_score : ℚ) (min_length : ℤ), _find_windows [] min_score min_length = []) := by
  refine ⟨?_, by with_unfolding_all decide, fun _ _ => rfl⟩
  intro q ml days hne hlen
  rw [findWindowsBy, (findWindowsGo_spec q ml days).1]
  exact mkWindow_mem_runsWindows
    (rtakeWhile_mem_qualRuns q days.length days le_rfl hne) hlen

/-- C6 witness: the trailing (here: whole) qualifying run of the three
90-score days is emitted under the numeric floor 80 with `min_length = 2`. -/
theorem c6_witness :
    mkWindow (threeGoodDays.rtakeWhile (fun d => decide ((80 : ℚ) ≤ d.score))) ∈
      findWindowsBy (fun d => decide ((80 : ℚ) ≤ d.score)) threeGoodDays 2 :=
  c6_trailing_run_flushed.1 (fun d => decide ((80 : ℚ) ≤ d.score)) 2 threeGoodDays
    (by with_unfolding_all decide) (by with_unfolding_all decide)

/-- C7 (confirmed): with `min_length = 1` the numeric window finder emits
exactly the maximal qualifying runs: the window lengths sum to the number
of qualifying days, and the windows are the windows of a `SepRuns`
decomposition — every run is non-empty and wholly qualifying, the days
bordering each run fail the floor, and two consecutive runs are separated
by at least one disqualifying day, so no window can be extended and no two
windows are adjacent. -/
theorem c7_min_length_one_partition (min_score : ℚ) (days : List ScoredDay) :
    ((_find_windows days min_score 1).map Window.length).sum =
      days.countP (fun d => decide (min_score ≤ d.score)) ∧
    ∃ rs : List (List ScoredDay),
      _find_windows days min_score 1 = rs.map mkWindow ∧
      SepRuns (fun d => decide (min_score ≤ d.score)) days rs := by
  set q : ScoredDay → Bool := fun d => decide (min_score ≤ d.score)
  have props := qualRuns_props q days.length days le_rfl
  have hfw : _find_windows days min_score 1 = runsWindows 1 (qualRuns q days) :=
    (findWindowsGo_spec q 1 days).1
  rw [hfw, runsWindows_one props.2.2]
  constructor
  · rw [List.map_map]
    have hcomp : (Window.length ∘ mkWindow) = List.length := by
      funext r
      rfl
    rw [hcomp, props.2.1]
  · exact ⟨qualRuns q days, rfl, props.1⟩
